import Mathlib

/-!
Shallow embedding of the invoice-validation core of `src/src/App.tsx`
(`validateInvoiceLocally`, `extractMeta`, `req`, `sampleInvoice`) and proofs
about it.

Modelling conventions:
* JavaScript values are modelled by `JSVal`; numbers are modelled by `ℚ`
  (exact rational arithmetic).  All numeric literals occurring in the code
  (`0.17`, `100`, `1`, `0`) are exactly representable, and the arithmetic the
  validator performs on the inputs considered here is exact, so `ℚ` agrees
  with IEEE semantics on every comparison the validator makes away from
  floating-point round-off boundaries.  `NaN`/`Infinity` are not modelled.
* `Math.round x` rounds half-way cases toward `+∞`, i.e. it is `⌊x + 1/2⌋`.
* Property access `o?.k` yields `undefined` when `o` is `null`/`undefined`
  or not an object (none of the accessed keys exists on primitive wrappers);
  plain access `o.k` additionally throws a `TypeError` when `o` is
  `null`/`undefined`, which is surfaced as `Except.error`.
* `String(v)` is modelled for the values the validator can meet: strings are
  the identity, integers print their decimal digits, non-integral rationals
  print as sign, integer part, `'.'`, then the long-division digits (exact
  for every rational with a terminating decimal expansion, which includes
  every finite double below 1e21; non-terminating expansions are cut off by
  fuel, and in any case contain a `'.'`, so they never match `^\d{9}$`).
-/

namespace ClearEdge

/-- Model of a JavaScript value as decoded from JSON/CSV: `null`,
`undefined`, booleans, numbers (as exact rationals), strings, and objects
(association lists of named fields). -/
inductive JSVal where
  | vNull
  | vUndefined
  | vBool (b : Bool)
  | vNum (q : ℚ)
  | vStr (s : String)
  | vObj (fields : List (String × JSVal))

/-- JavaScript truthiness: `null`, `undefined`, `false`, `0` and `""` are
falsy; every other modelled value is truthy. -/
def truthy : JSVal → Bool
  | .vNull => false
  | .vUndefined => false
  | .vBool b => b
  | .vNum q => !(q == 0)
  | .vStr s => !(s == "")
  | .vObj _ => true

/-- Loose equality to `null` (`x == null`): true exactly on `null` and
`undefined`. -/
def nullish : JSVal → Bool
  | .vNull => true
  | .vUndefined => true
  | _ => false

/-- First binding of `key` in an object's field list. -/
def lookupField : List (String × JSVal) → String → Option JSVal
  | [], _ => none
  | (k, v) :: rest, key => if k == key then some v else lookupField rest key

/-- Optional-chaining property read `inv?.key`: `undefined` when the
receiver is nullish or not an object, else the field (or `undefined` when
absent).  Inside branches guarded so that the receiver is an object, this
also models the plain read `inv.key`. -/
def optGet : JSVal → String → JSVal
  | .vObj fs, key => (lookupField fs key).getD .vUndefined
  | _, _ => .vUndefined

/-- Property assignment `inv[key] = v` on an object record: replaces the
binding if present, else appends it; leaves non-objects unchanged. -/
def updateEntry : List (String × JSVal) → String → JSVal → List (String × JSVal)
  | [], k, v => [(k, v)]
  | (k', v') :: rest, k, v =>
      if k' == k then (k, v) :: rest else (k', v') :: updateEntry rest k v

/-- Record with one field replaced (or added), every other field unchanged. -/
def setField : JSVal → String → JSVal → JSVal
  | .vObj fs, k, v => .vObj (updateEntry fs k v)
  | o, _, _ => o

/-- Decimal digits of `r / d` (`r < d`) by long division, with fuel.  Exact
whenever the expansion terminates within the fuel, which covers every
JavaScript number. -/
def fracDigits : Nat → Nat → Nat → String
  | 0, _, _ => ""
  | _, 0, _ => ""
  | fuel + 1, r, d => Nat.repr (r * 10 / d) ++ fracDigits fuel (r * 10 % d) d

/-- JavaScript number-to-string conversion on the modelled rationals:
integers print their decimal digits (with a leading `-` when negative),
non-integers print integer part, a dot, and the fractional digits. -/
def numToString (q : ℚ) : String :=
  let n := q.num.natAbs
  let sign := if q.num < 0 then "-" else ""
  if q.den = 1 then sign ++ Nat.repr n
  else sign ++ Nat.repr (n / q.den) ++ "." ++ fracDigits 1200 (n % q.den) q.den

/-- JavaScript `String(v)` on the modelled values. -/
def jsToString : JSVal → String
  | .vNull => "null"
  | .vUndefined => "undefined"
  | .vBool true => "true"
  | .vBool false => "false"
  | .vNum q => numToString q
  | .vStr s => s
  | .vObj _ => "[object Object]"

/-- Test of the regular expression `^\d{9}$`: exactly nine ASCII decimal
digits. -/
def isNineDigits (s : String) : Bool :=
  s.length == 9 && s.data.all Char.isDigit

/-- `typeof v === 'number'`. -/
def isNumber : JSVal → Bool
  | .vNum _ => true
  | _ => false

/-- Discriminates string values (used to state the coercion claims). -/
def isString : JSVal → Bool
  | .vStr _ => true
  | _ => false

/-- Numeric value of a number (`Number(x)` is the identity on numbers; the
validator only applies it under a `typeof ... === 'number'` guard). -/
def asNum : JSVal → ℚ
  | .vNum q => q
  | _ => 0

/-- Severity levels, as in `type Severity = 'LOW' | 'MED' | 'HIGH'`. -/
inductive Severity where
  | LOW
  | MED
  | HIGH
deriving DecidableEq

/-- Traffic-light classification, `type Level = 'GREEN' | 'YELLOW' | 'RED'`. -/
inductive Level where
  | GREEN
  | YELLOW
  | RED
deriving DecidableEq

/-- One finding, as in `interface Issue`. -/
structure Issue where
  code : String
  severity : Severity
  message : String
  fix : String
deriving DecidableEq

/-- Normalized display metadata returned by `extractMeta`. -/
structure Meta where
  supplierVat : JSVal
  customerVat : JSVal
  total : JSVal
  vat : JSVal
  date : JSVal
  currency : JSVal

/-- Validation report, as in `interface Report`. -/
structure Report where
  level : Level
  score : Int
  issues : List Issue
  meta : Meta

/-- Issue constructor `req(code, severity, message, fix)`. -/
def req (code : String) (severity : Severity) (message : String) (fix : String) : Issue :=
  { code := code, severity := severity, message := message, fix := fix }

/-- Nullish coalescing `a ?? b`. -/
def nullishCoalesce (a b : JSVal) : JSVal :=
  if nullish a then b else a

/-- Embedding of `extractMeta`: each field is `inv?.field ?? fallback`, the
fallback being `''` except `'ILS'` for `currency`. -/
def extractMeta (inv : JSVal) : Meta :=
  { supplierVat := nullishCoalesce (optGet inv "supplierVat") (.vStr "")
  , customerVat := nullishCoalesce (optGet inv "customerVat") (.vStr "")
  , total := nullishCoalesce (optGet inv "total") (.vStr "")
  , vat := nullishCoalesce (optGet inv "vat") (.vStr "")
  , date := nullishCoalesce (optGet inv "date") (.vStr "")
  , currency := nullishCoalesce (optGet inv "currency") (.vStr "ILS") }

/-- JavaScript `Math.round`: nearest integer, halves toward `+∞`. -/
def mathRound (q : ℚ) : Int :=
  Int.floor (q + 1 / 2)

/-- The fixed VAT rate `0.17` (exactly `17/100` as a rational). -/
def vatRate : ℚ := 0.17

/-- Condition of the `SUPPLIER_VAT` check: `!inv?.supplierVat`. -/
def supplierVatMissing (inv : JSVal) : Bool :=
  !truthy (optGet inv "supplierVat")

/-- Condition of the `CUSTOMER_VAT` check: `!inv?.customerVat`. -/
def customerVatMissing (inv : JSVal) : Bool :=
  !truthy (optGet inv "customerVat")

/-- Condition of the `DATE` check: `!inv?.date`. -/
def dateMissing (inv : JSVal) : Bool :=
  !truthy (optGet inv "date")

/-- Condition of the `TOTAL` check: `inv?.total == null`. -/
def totalMissing (inv : JSVal) : Bool :=
  nullish (optGet inv "total")

/-- Condition of the `VAT` check: `inv?.vat == null`. -/
def vatMissing (inv : JSVal) : Bool :=
  nullish (optGet inv "vat")

/-- Condition of the `SUPPLIER_VAT_FMT` check:
`inv?.supplierVat && !/^\d{9}$/.test(String(inv.supplierVat))`. -/
def supplierVatFmtBad (inv : JSVal) : Bool :=
  truthy (optGet inv "supplierVat") &&
    !isNineDigits (jsToString (optGet inv "supplierVat"))

/-- Condition of the `CUSTOMER_VAT_FMT` check. -/
def customerVatFmtBad (inv : JSVal) : Bool :=
  truthy (optGet inv "customerVat") &&
    !isNineDigits (jsToString (optGet inv "customerVat"))

/-- Guard of the arithmetic block:
`typeof inv.total === 'number' && typeof inv.vat === 'number'`. -/
def arithApplicable (inv : JSVal) : Bool :=
  isNumber (optGet inv "total") && isNumber (optGet inv "vat")

/-- The `subtotal` of the arithmetic block: `Number(inv.total) - Number(inv.vat)`. -/
def subtotalOf (inv : JSVal) : ℚ :=
  asNum (optGet inv "total") - asNum (optGet inv "vat")

/-- The `expectedVat` of the arithmetic block:
`Math.round(subtotal * vatRate * 100) / 100`. -/
def expectedVatOf (inv : JSVal) : ℚ :=
  (mathRound (subtotalOf inv * vatRate * 100) : ℚ) / 100

/-- Condition of the `VAT_MISMATCH` check: the arithmetic block applies and
`Math.abs(expectedVat - Number(inv.vat)) > 1`. -/
def vatMismatch (inv : JSVal) : Bool :=
  arithApplicable inv &&
    decide (|expectedVatOf inv - asNum (optGet inv "vat")| > 1)

/-- Condition of the `SUBTOTAL_NEG` check: the arithmetic block applies and
`subtotal <= 0`. -/
def subtotalNeg (inv : JSVal) : Bool :=
  arithApplicable inv && decide (subtotalOf inv ≤ 0)

/-- The currency allowlist `['ILS','USD','EUR']`. -/
def supportedCurrencies : List String := ["ILS", "USD", "EUR"]

/-- Condition of the `CURRENCY_UNSUPPORTED` check:
`inv?.currency && !supportedCurrencies.includes(inv.currency)`.
`includes` uses strict equality, so only a string can match the allowlist. -/
def currencyUnsupported (inv : JSVal) : Bool :=
  truthy (optGet inv "currency") &&
    !(match optGet inv "currency" with
      | .vStr s => supportedCurrencies.contains s
      | _ => false)

/-- Condition of the `INVOICE_ID_WEAK` check:
`inv?.invoiceId && String(inv.invoiceId).length < 3`. -/
def invoiceIdWeak (inv : JSVal) : Bool :=
  truthy (optGet inv "invoiceId") &&
    decide ((jsToString (optGet inv "invoiceId")).length < 3)

/-- The ordered issue list pushed by `validateInvoiceLocally`, one optional
singleton per check, in source order.  (In the source the first seven pushes
happen before the arithmetic block's throwing member access; since a thrown
error discards them, hoisting the null test before the list changes nothing
observable.) -/
def issuesFor (inv : JSVal) : List Issue :=
  (if supplierVatMissing inv then
    [req "SUPPLIER_VAT" .HIGH "חסר מספר עוסק של הספק" "הוסף מספר עוסק (9 ספרות) בשדה supplierVat"] else [])
  ++ (if customerVatMissing inv then
    [req "CUSTOMER_VAT" .MED "חסר מספר עוסק של הלקוח" "הוסף מספר עוסק בשדה customerVat"] else [])
  ++ (if dateMissing inv then
    [req "DATE" .MED "חסר תאריך חשבונית" "הוסף תאריך בפורמט YYYY-MM-DD"] else [])
  ++ (if totalMissing inv then
    [req "TOTAL" .HIGH "חסר סכום סופי (total)" "הוסף סכום כולל"] else [])
  ++ (if vatMissing inv then
    [req "VAT" .MED "חסר סכום מע\"מ (vat)" "הוסף סכום מע\"מ"] else [])
  ++ (if supplierVatFmtBad inv then
    [req "SUPPLIER_VAT_FMT" .HIGH "פורמט עוסק ספק לא תקין" "ודא 9 ספרות ללא מקפים"] else [])
  ++ (if customerVatFmtBad inv then
    [req "CUSTOMER_VAT_FMT" .MED "פורמט עוסק לקוח לא תקין" "ודא 9 ספרות ללא מקפים"] else [])
  ++ (if vatMismatch inv then
    [req "VAT_MISMATCH" .MED "מע\"מ לא תואם את שיעור 17%" "בדוק חישובי ביניים/עגול סכומים"] else [])
  ++ (if subtotalNeg inv then
    [req "SUBTOTAL_NEG" .HIGH "סכום לפני מע\"מ לא תקין (שלילי/אפס)" "בדוק שורת פריטים וחישוב סיכומים"] else [])
  ++ (if currencyUnsupported inv then
    [req "CURRENCY_UNSUPPORTED" .LOW "מטבע לא נתמך ב-MVP" "השתמש ב-ILS/USD/EUR"] else [])
  ++ (if invoiceIdWeak inv then
    [req "INVOICE_ID_WEAK" .LOW "מזהה חשבונית חלש/קצר מדי" "הגדל את אורך המזהה למינימום 6 תווים"] else [])

/-- Per-severity score penalty:
`severity === 'HIGH' ? 25 : severity === 'MED' ? 12 : 5`. -/
def severityPenalty : Severity → Int
  | .HIGH => 25
  | .MED => 12
  | .LOW => 5

/-- `issues.reduce((acc, it) => acc + penalty(it.severity), 0)`. -/
def penaltySum (issues : List Issue) : Int :=
  issues.foldl (fun acc it => acc + severityPenalty it.severity) 0

/-- Classification `score >= 85 ? 'GREEN' : score >= 60 ? 'YELLOW' : 'RED'`. -/
def levelFor (score : Int) : Level :=
  if 85 ≤ score then .GREEN else if 60 ≤ score then .YELLOW else .RED

/-- Embedding of `validateInvoiceLocally`.  The arithmetic block reads
`inv.total` without optional chaining, so a nullish input makes the function
throw a `TypeError`, modelled as `Except.error`; every other input yields a
report. -/
def validateInvoiceLocally (inv : JSVal) : Except String Report :=
  if nullish inv then
    Except.error "TypeError: cannot read properties of null or undefined (reading total)"
  else
    let issues := issuesFor inv
    let score := max 0 (min 100 (100 - penaltySum issues))
    Except.ok
      { level := levelFor score
      , score := score
      , issues := issues
      , meta := extractMeta inv }

/-- The canonical sample record returned by `sampleInvoice()`. -/
def sampleInvoice : JSVal :=
  .vObj
    [ ("supplierVat", .vStr "512345679")
    , ("customerVat", .vStr "598765431")
    , ("invoiceId", .vStr "INV-2025-00123")
    , ("date", .vStr "2025-09-12")
    , ("currency", .vStr "ILS")
    , ("vat", .vNum 170)
    , ("total", .vNum 1000) ]

/-- Names for the eleven rule checks of the battery (used to state the
monotonicity claim, which quantifies over checks and the fields they guard). -/
inductive Check where
  | supplierVatC
  | customerVatC
  | dateC
  | totalC
  | vatC
  | supplierVatFmtC
  | customerVatFmtC
  | vatMismatchC
  | subtotalNegC
  | currencyC
  | invoiceIdC

/-- The input field a check reads; the two arithmetic findings read both
`total` and `vat`, listed here under the amount they primarily constrain. -/
def Check.field : Check → String
  | .supplierVatC => "supplierVat"
  | .supplierVatFmtC => "supplierVat"
  | .customerVatC => "customerVat"
  | .customerVatFmtC => "customerVat"
  | .dateC => "date"
  | .totalC => "total"
  | .subtotalNegC => "total"
  | .vatC => "vat"
  | .vatMismatchC => "vat"
  | .currencyC => "currency"
  | .invoiceIdC => "invoiceId"

/-- Whether a check fails (produces its finding) on an input. -/
def checkFires : Check → JSVal → Bool
  | .supplierVatC, inv => supplierVatMissing inv
  | .customerVatC, inv => customerVatMissing inv
  | .dateC, inv => dateMissing inv
  | .totalC, inv => totalMissing inv
  | .vatC, inv => vatMissing inv
  | .supplierVatFmtC, inv => supplierVatFmtBad inv
  | .customerVatFmtC, inv => customerVatFmtBad inv
  | .vatMismatchC, inv => vatMismatch inv
  | .subtotalNegC, inv => subtotalNeg inv
  | .currencyC, inv => currencyUnsupported inv
  | .invoiceIdC, inv => invoiceIdWeak inv

/-- Spec-side description of one normalized field, for comparison with
`extractMeta`: the field's value if present and not null/undefined, else the
fallback. -/
def metaSpecField (fs : List (String × JSVal)) (key : String) (fallback : JSVal) : JSVal :=
  match lookupField fs key with
  | some v => if nullish v then fallback else v
  | none => fallback

lemma mem_if_singleton (b : Bool) (x i : Issue) :
    (i ∈ (if b then [x] else [])) ↔ (b = true ∧ i = x) := by
  cases b <;> simp

lemma one_lt_abs_of_one_lt {q : ℚ} (h : 1 < q) : 1 < |q| :=
  lt_of_lt_of_le h (le_abs_self q)

lemma one_lt_abs_of_lt_neg_one {q : ℚ} (h : q < -1) : 1 < |q| := by
  have := neg_le_abs q
  linarith

lemma penaltySum_foldl (l : List Issue) (acc : Int) :
    l.foldl (fun a i => a + severityPenalty i.severity) acc = acc + penaltySum l := by
  induction l generalizing acc with
  | nil => simp [penaltySum]
  | cons x xs ih =>
      unfold penaltySum
      simp only [List.foldl_cons]
      rw [ih, ih (0 + severityPenalty x.severity)]
      ring

lemma penaltySum_cons (x : Issue) (xs : List Issue) :
    penaltySum (x :: xs) = severityPenalty x.severity + penaltySum xs := by
  calc penaltySum (x :: xs)
      = xs.foldl (fun a i => a + severityPenalty i.severity) (0 + severityPenalty x.severity) := rfl
    _ = (0 + severityPenalty x.severity) + penaltySum xs := penaltySum_foldl xs _
    _ = severityPenalty x.severity + penaltySum xs := by ring

lemma penaltySum_append (a b : List Issue) :
    penaltySum (a ++ b) = penaltySum a + penaltySum b := by
  unfold penaltySum
  rw [List.foldl_append]
  exact penaltySum_foldl b (penaltySum a)

lemma penaltySum_if (b : Bool) (i : Issue) :
    penaltySum (if b then [i] else []) = if b then severityPenalty i.severity else 0 := by
  cases b <;> simp [penaltySum]

lemma severityPenalty_nonneg (s : Severity) : 0 ≤ severityPenalty s := by
  cases s <;> simp [severityPenalty]

lemma penaltySum_nonneg (l : List Issue) : 0 ≤ penaltySum l := by
  induction l with
  | nil => simp [penaltySum]
  | cons x xs ih =>
      have hx := severityPenalty_nonneg x.severity
      rw [penaltySum_cons]
      omega

lemma penaltySum_issuesFor (inv : JSVal) :
    penaltySum (issuesFor inv) =
      (if supplierVatMissing inv then (25 : Int) else 0)
      + (if customerVatMissing inv then 12 else 0)
      + (if dateMissing inv then 12 else 0)
      + (if totalMissing inv then 25 else 0)
      + (if vatMissing inv then 12 else 0)
      + (if supplierVatFmtBad inv then 25 else 0)
      + (if customerVatFmtBad inv then 12 else 0)
      + (if vatMismatch inv then 12 else 0)
      + (if subtotalNeg inv then 25 else 0)
      + (if currencyUnsupported inv then 5 else 0)
      + (if invoiceIdWeak inv then 5 else 0) := by
  simp only [issuesFor, penaltySum_append, penaltySum_if, req, severityPenalty]
  try ring

lemma supplierVatFmtBad_of_missing (inv : JSVal) (h : supplierVatMissing inv = true) :
    supplierVatFmtBad inv = false := by
  simp only [supplierVatMissing, Bool.not_eq_eq_eq_not, Bool.not_true] at h
  simp [supplierVatFmtBad, h]

lemma customerVatFmtBad_of_missing (inv : JSVal) (h : customerVatMissing inv = true) :
    customerVatFmtBad inv = false := by
  simp only [customerVatMissing, Bool.not_eq_eq_eq_not, Bool.not_true] at h
  simp [customerVatFmtBad, h]

lemma isNumber_not_nullish {v : JSVal} (h : isNumber v = true) : nullish v = false := by
  cases v <;> simp_all [isNumber, nullish]

lemma arithApplicable_not_missing {inv : JSVal} (h : arithApplicable inv = true) :
    totalMissing inv = false ∧ vatMissing inv = false := by
  simp only [arithApplicable, Bool.and_eq_true] at h
  exact ⟨isNumber_not_nullish h.1, isNumber_not_nullish h.2⟩

lemma no_arith_findings {inv : JSVal} (h : arithApplicable inv = false) :
    vatMismatch inv = false ∧ subtotalNeg inv = false := by
  unfold vatMismatch subtotalNeg
  simp [h]

lemma penaltySum_issuesFor_le (inv : JSVal) : penaltySum (issuesFor inv) ≤ 96 := by
  rw [penaltySum_issuesFor]
  have hsup : (if supplierVatMissing inv then (25 : Int) else 0)
      + (if supplierVatFmtBad inv then 25 else 0) ≤ 25 := by
    cases hs : supplierVatMissing inv
    · cases hf : supplierVatFmtBad inv <;> simp
    · rw [supplierVatFmtBad_of_missing inv hs]
      simp
  have hcus : (if customerVatMissing inv then (12 : Int) else 0)
      + (if customerVatFmtBad inv then 12 else 0) ≤ 12 := by
    cases hs : customerVatMissing inv
    · cases hf : customerVatFmtBad inv <;> simp
    · rw [customerVatFmtBad_of_missing inv hs]
      simp
  have htv : (if totalMissing inv then (25 : Int) else 0)
      + (if vatMissing inv then 12 else 0)
      + (if vatMismatch inv then 12 else 0)
      + (if subtotalNeg inv then 25 else 0) ≤ 37 := by
    cases ha : arithApplicable inv
    · obtain ⟨hm, hn⟩ := no_arith_findings ha
      rw [hm, hn]
      cases totalMissing inv <;> cases vatMissing inv <;> simp
    · obtain ⟨hT, hV⟩ := arithApplicable_not_missing ha
      rw [hT, hV]
      cases vatMismatch inv <;> cases subtotalNeg inv <;> simp
  have hdate : (if dateMissing inv then (12 : Int) else 0) ≤ 12 := by
    cases dateMissing inv <;> simp
  have hcur : (if currencyUnsupported inv then (5 : Int) else 0) ≤ 5 := by
    cases currencyUnsupported inv <;> simp
  have hid : (if invoiceIdWeak inv then (5 : Int) else 0) ≤ 5 := by
    cases invoiceIdWeak inv <;> simp
  linarith

lemma validate_eq (inv : JSVal) (h : nullish inv = false) :
    validateInvoiceLocally inv = Except.ok
      { level := levelFor (max 0 (min 100 (100 - penaltySum (issuesFor inv))))
      , score := max 0 (min 100 (100 - penaltySum (issuesFor inv)))
      , issues := issuesFor inv
      , meta := extractMeta inv } := by
  unfold validateInvoiceLocally
  rw [h]
  rfl

lemma validate_ok_inv {inv : JSVal} {r : Report}
    (h : validateInvoiceLocally inv = Except.ok r) :
    nullish inv = false ∧
      r = { level := levelFor (max 0 (min 100 (100 - penaltySum (issuesFor inv))))
          , score := max 0 (min 100 (100 - penaltySum (issuesFor inv)))
          , issues := issuesFor inv
          , meta := extractMeta inv } := by
  cases hn : nullish inv
  · rw [validate_eq inv hn] at h
    exact ⟨rfl, (Except.ok.injEq _ _ ▸ h.symm :)⟩
  · unfold validateInvoiceLocally at h
    rw [hn] at h
    simp at h

lemma sample_mismatch : vatMismatch sampleInvoice = true := by
  simp [vatMismatch, arithApplicable, expectedVatOf, subtotalOf, sampleInvoice, optGet,
    lookupField, asNum, isNumber, mathRound, vatRate]
  exact one_lt_abs_of_lt_neg_one (by norm_num)

lemma sample_subneg : subtotalNeg sampleInvoice = false := by
  simp [subtotalNeg, arithApplicable, subtotalOf, sampleInvoice, optGet, lookupField,
    asNum, isNumber]
  try norm_num

lemma sample_issues :
    issuesFor sampleInvoice =
      [req "VAT_MISMATCH" .MED "מע\"מ לא תואם את שיעור 17%" "בדוק חישובי ביניים/עגול סכומים"] := by
  have h1 : supplierVatMissing sampleInvoice = false := by decide
  have h2 : customerVatMissing sampleInvoice = false := by decide
  have h3 : dateMissing sampleInvoice = false := by decide
  have h4 : totalMissing sampleInvoice = false := by decide
  have h5 : vatMissing sampleInvoice = false := by decide
  have h6 : supplierVatFmtBad sampleInvoice = false := by decide
  have h7 : customerVatFmtBad sampleInvoice = false := by decide
  have h10 : currencyUnsupported sampleInvoice = false := by decide
  have h11 : invoiceIdWeak sampleInvoice = false := by decide
  simp [issuesFor, h1, h2, h3, h4, h5, h6, h7, sample_mismatch, sample_subneg, h10, h11]

lemma empty_issues :
    issuesFor (.vObj []) =
      [ req "SUPPLIER_VAT" .HIGH "חסר מספר עוסק של הספק" "הוסף מספר עוסק (9 ספרות) בשדה supplierVat"
      , req "CUSTOMER_VAT" .MED "חסר מספר עוסק של הלקוח" "הוסף מספר עוסק בשדה customerVat"
      , req "DATE" .MED "חסר תאריך חשבונית" "הוסף תאריך בפורמט YYYY-MM-DD"
      , req "TOTAL" .HIGH "חסר סכום סופי (total)" "הוסף סכום כולל"
      , req "VAT" .MED "חסר סכום מע\"מ (vat)" "הוסף סכום מע\"מ" ] := by
  have h8 : vatMismatch (.vObj []) = false := by
    simp [vatMismatch, arithApplicable, optGet, lookupField, isNumber]
  have h9 : subtotalNeg (.vObj []) = false := by
    simp [subtotalNeg, arithApplicable, optGet, lookupField, isNumber]
  have h1 : supplierVatMissing (.vObj []) = true := by decide
  have h2 : customerVatMissing (.vObj []) = true := by decide
  have h3 : dateMissing (.vObj []) = true := by decide
  have h4 : totalMissing (.vObj []) = true := by decide
  have h5 : vatMissing (.vObj []) = true := by decide
  have h6 : supplierVatFmtBad (.vObj []) = false := by decide
  have h7 : customerVatFmtBad (.vObj []) = false := by decide
  have h10 : currencyUnsupported (.vObj []) = false := by decide
  have h11 : invoiceIdWeak (.vObj []) = false := by decide
  simp [issuesFor, h1, h2, h3, h4, h5, h6, h7, h8, h9, h10, h11]

/-- C1: on the canonical sample record the validator reports exactly one
finding, `VAT_MISMATCH` of severity `MED` (the spec's MEDIUM), with score 88
and level `GREEN`. -/
theorem c1_canonical_sample :
    ∃ r, validateInvoiceLocally sampleInvoice = Except.ok r ∧
      r.issues.map (fun i => (i.code, i.severity)) = [("VAT_MISMATCH", Severity.MED)] ∧
      r.score = 88 ∧ r.level = Level.GREEN := by
  refine ⟨_, validate_eq sampleInvoice (by decide), ?_, ?_, ?_⟩
  · simp [sample_issues, req]
  · have : penaltySum (issuesFor sampleInvoice) = 12 := by
      rw [sample_issues]
      simp [penaltySum_cons, penaltySum, severityPenalty, req]
    simp only [this]
    decide
  · have : penaltySum (issuesFor sampleInvoice) = 12 := by
      rw [sample_issues]
      simp [penaltySum_cons, penaltySum, severityPenalty, req]
    simp only [this]
    decide

/-- C2: the claim that the validator never throws is false — on the inputs
`null` and `undefined` the unguarded member access `inv.total` in the
arithmetic block throws a `TypeError` (modelled as `Except.error`); every
non-nullish input does yield a report. -/
theorem c2_null_throws :
    (∃ e, validateInvoiceLocally .vNull = Except.error e) ∧
      (∃ e, validateInvoiceLocally .vUndefined = Except.error e) ∧
      ∀ inv : JSVal, nullish inv = false → ∃ r, validateInvoiceLocally inv = Except.ok r := by
  refine ⟨⟨_, rfl⟩, ⟨_, rfl⟩, fun inv h => ⟨_, validate_eq inv h⟩⟩

/-- C5: on the empty record the validator reports exactly the five
missing-field findings, in rule order, with score 14 and level `RED`. -/
theorem c5_empty_record :
    ∃ r, validateInvoiceLocally (.vObj []) = Except.ok r ∧
      r.issues.map (fun i => (i.code, i.severity)) =
        [ ("SUPPLIER_VAT", Severity.HIGH), ("CUSTOMER_VAT", Severity.MED)
        , ("DATE", Severity.MED), ("TOTAL", Severity.HIGH), ("VAT", Severity.MED) ] ∧
      r.score = 14 ∧ r.level = Level.RED := by
  refine ⟨_, validate_eq (.vObj []) (by decide), ?_, ?_, ?_⟩
  · simp [empty_issues, req]
  · have : penaltySum (issuesFor (.vObj [])) = 86 := by
      rw [empty_issues]
      simp [penaltySum_cons, penaltySum, severityPenalty, req]
    simp only [this]
    decide
  · have : penaltySum (issuesFor (.vObj [])) = 86 := by
      rw [empty_issues]
      simp [penaltySum_cons, penaltySum, severityPenalty, req]
    simp only [this]
    decide

lemma levelFor_bands (s : Int) :
    (levelFor s = Level.GREEN ↔ 85 ≤ s) ∧
      (levelFor s = Level.YELLOW ↔ 60 ≤ s ∧ s < 85) ∧
      (levelFor s = Level.RED ↔ s < 60) := by
  unfold levelFor
  split_ifs with h1 h2 <;> refine ⟨?_, ?_, ?_⟩ <;> simp <;> omega

lemma penaltySum_eq_map_sum (l : List Issue) :
    penaltySum l = (l.map (fun i => severityPenalty i.severity)).sum := by
  induction l with
  | nil => simp [penaltySum]
  | cons x xs ih => rw [penaltySum_cons]; simp [ih]

/-- C3: for every input record the returned score is 100 minus the sum of
the per-severity penalties of all findings (HIGH 25, MED 12, LOW 5), with
only the final sum clamped to [0,100]; consequently the score always lies
in [0,100]. -/
theorem c3_score_formula (inv : JSVal) (r : Report)
    (h : validateInvoiceLocally inv = Except.ok r) :
    r.score = max 0 (min 100 (100 - (r.issues.map (fun i => severityPenalty i.severity)).sum)) ∧
      0 ≤ r.score ∧ r.score ≤ 100 := by
  obtain ⟨hn, rfl⟩ := validate_ok_inv h
  refine ⟨?_, ?_, ?_⟩
  · show max 0 (min 100 (100 - penaltySum (issuesFor inv)))
        = max 0 (min 100 (100 - ((issuesFor inv).map (fun i => severityPenalty i.severity)).sum))
    rw [← penaltySum_eq_map_sum]
  · show (0 : Int) ≤ max 0 (min 100 (100 - penaltySum (issuesFor inv)))
    omega
  · show max 0 (min 100 (100 - penaltySum (issuesFor inv))) ≤ 100
    omega

/-- C3 witness: the score formula and bounds instantiated on the canonical
sample record. -/
theorem c3_score_formula_witness :
    ∃ r, validateInvoiceLocally sampleInvoice = Except.ok r ∧
      (r.score = max 0 (min 100 (100 - (r.issues.map (fun i => severityPenalty i.severity)).sum)) ∧
        0 ≤ r.score ∧ r.score ≤ 100) :=
  ⟨_, validate_eq sampleInvoice rfl,
    c3_score_formula sampleInvoice _ (validate_eq sampleInvoice rfl)⟩

/-- C4: the level is the band of the clamped score: `GREEN` iff score ≥ 85,
`YELLOW` iff 60 ≤ score < 85, `RED` iff score < 60, each band inclusive at
its lower bound. -/
theorem c4_level_bands (inv : JSVal) (r : Report)
    (h : validateInvoiceLocally inv = Except.ok r) :
    (r.level = Level.GREEN ↔ 85 ≤ r.score) ∧
      (r.level = Level.YELLOW ↔ 60 ≤ r.score ∧ r.score < 85) ∧
      (r.level = Level.RED ↔ r.score < 60) := by
  obtain ⟨hn, rfl⟩ := validate_ok_inv h
  exact levelFor_bands _

/-- C4 witness: the level bands instantiated on the empty record. -/
theorem c4_level_bands_witness :
    ∃ r, validateInvoiceLocally (.vObj []) = Except.ok r ∧
      ((r.level = Level.GREEN ↔ 85 ≤ r.score) ∧
        (r.level = Level.YELLOW ↔ 60 ≤ r.score ∧ r.score < 85) ∧
        (r.level = Level.RED ↔ r.score < 60)) :=
  ⟨_, validate_eq (.vObj []) rfl,
    c4_level_bands (.vObj []) _ (validate_eq (.vObj []) rfl)⟩

/-- C8: on every record, each of the six normalized fields is the field's
value when present and non-nullish (numbers passed through untransformed),
else the fallback — empty string, except `"ILS"` for `currency`. -/
theorem c8_normalizer (fs : List (String × JSVal)) :
    extractMeta (.vObj fs) =
      { supplierVat := metaSpecField fs "supplierVat" (.vStr "")
      , customerVat := metaSpecField fs "customerVat" (.vStr "")
      , total := metaSpecField fs "total" (.vStr "")
      , vat := metaSpecField fs "vat" (.vStr "")
      , date := metaSpecField fs "date" (.vStr "")
      , currency := metaSpecField fs "currency" (.vStr "ILS") } := by
  have key : ∀ (k : String) (fb : JSVal),
      nullishCoalesce (optGet (.vObj fs) k) fb = metaSpecField fs k fb := by
    intro k fb
    cases hl : lookupField fs k <;>
      simp only [optGet, metaSpecField, hl, Option.getD] <;>
      simp [nullishCoalesce, nullish]
  unfold extractMeta
  rw [key, key, key, key, key, key]

/-- C9: over all reports the validator can return, the summed penalty is at
most 96, the score equals 100 minus the penalty sum (the lower clamp at 0
is never active), and the score is at least 4. -/
theorem c9_penalty_bound (inv : JSVal) (r : Report)
    (h : validateInvoiceLocally inv = Except.ok r) :
    penaltySum r.issues ≤ 96 ∧ r.score = 100 - penaltySum r.issues ∧ 4 ≤ r.score := by
  obtain ⟨hn, rfl⟩ := validate_ok_inv h
  have hle := penaltySum_issuesFor_le inv
  have hnn := penaltySum_nonneg (issuesFor inv)
  refine ⟨hle, ?_, ?_⟩
  · show max 0 (min 100 (100 - penaltySum (issuesFor inv))) = 100 - penaltySum (issuesFor inv)
    omega
  · show (4 : Int) ≤ max 0 (min 100 (100 - penaltySum (issuesFor inv)))
    omega

/-- C9 witness: the bound instantiated on the empty record, where the
penalty sum reaches 86 and the score is 14. -/
theorem c9_penalty_bound_witness :
    ∃ r, validateInvoiceLocally (.vObj []) = Except.ok r ∧
      (penaltySum r.issues ≤ 96 ∧ r.score = 100 - penaltySum r.issues ∧ 4 ≤ r.score) :=
  ⟨_, validate_eq (.vObj []) rfl,
    c9_penalty_bound (.vObj []) _ (validate_eq (.vObj []) rfl)⟩

lemma mem_code_vatMismatch (inv : JSVal) :
    (∃ i ∈ issuesFor inv, i.code = "VAT_MISMATCH") ↔ vatMismatch inv = true := by
  simp [issuesFor, List.mem_append, mem_if_singleton, req, or_and_right, exists_or,
    and_assoc, exists_and_left, exists_eq_left]

lemma mem_code_subtotalNeg (inv : JSVal) :
    (∃ i ∈ issuesFor inv, i.code = "SUBTOTAL_NEG") ↔ subtotalNeg inv = true := by
  simp [issuesFor, List.mem_append, mem_if_singleton, req, or_and_right, exists_or,
    and_assoc, exists_and_left, exists_eq_left]

lemma mem_code_supplierFmt (inv : JSVal) :
    (∃ i ∈ issuesFor inv, i.code = "SUPPLIER_VAT_FMT") ↔ supplierVatFmtBad inv = true := by
  simp [issuesFor, List.mem_append, mem_if_singleton, req, or_and_right, exists_or,
    and_assoc, exists_and_left, exists_eq_left]

lemma mem_code_customerFmt (inv : JSVal) :
    (∃ i ∈ issuesFor inv, i.code = "CUSTOMER_VAT_FMT") ↔ customerVatFmtBad inv = true := by
  simp [issuesFor, List.mem_append, mem_if_singleton, req, or_and_right, exists_or,
    and_assoc, exists_and_left, exists_eq_left]

/-- C7: when `total` and `vat` are both numbers, `VAT_MISMATCH` is produced
exactly when the rounded expected VAT differs from `vat` by more than 1, and
`SUBTOTAL_NEG` exactly when `total - vat ≤ 0`; when either is not a number,
neither finding is produced. -/
theorem c7_arith_checks (inv : JSVal) (r : Report)
    (h : validateInvoiceLocally inv = Except.ok r) :
    (∀ t v : ℚ, optGet inv "total" = .vNum t → optGet inv "vat" = .vNum v →
      (((∃ i ∈ r.issues, i.code = "VAT_MISMATCH") ↔
          1 < |(mathRound ((t - v) * 0.17 * 100) : ℚ) / 100 - v|) ∧
        ((∃ i ∈ r.issues, i.code = "SUBTOTAL_NEG") ↔ t - v ≤ 0))) ∧
    ((isNumber (optGet inv "total") = false ∨ isNumber (optGet inv "vat") = false) →
      ∀ i ∈ r.issues, i.code ≠ "VAT_MISMATCH" ∧ i.code ≠ "SUBTOTAL_NEG") := by
  obtain ⟨hn, hr⟩ := validate_ok_inv h
  have hi : r.issues = issuesFor inv := by rw [hr]
  rw [hi]
  constructor
  · intro t v ht hv
    have hA : arithApplicable inv = true := by
      simp [arithApplicable, ht, hv, isNumber]
    constructor
    · rw [mem_code_vatMismatch]
      have hm : vatMismatch inv
          = decide (1 < |(mathRound ((t - v) * 0.17 * 100) : ℚ) / 100 - v|) := by
        simp only [vatMismatch, hA, Bool.true_and, expectedVatOf, subtotalOf, ht, hv,
          asNum, vatRate]
      rw [hm, decide_eq_true_eq]
    · rw [mem_code_subtotalNeg]
      have hs : subtotalNeg inv = decide (t - v ≤ 0) := by
        simp only [subtotalNeg, hA, Bool.true_and, subtotalOf, ht, hv, asNum]
      rw [hs, decide_eq_true_eq]
  · intro hno i hmem
    have hA : arithApplicable inv = false := by
      unfold arithApplicable
      rcases hno with hcase | hcase <;> simp [hcase]
    obtain ⟨hm, hs⟩ := no_arith_findings hA
    constructor
    · intro hc
      have hex : (∃ i ∈ issuesFor inv, i.code = "VAT_MISMATCH") := ⟨i, hmem, hc⟩
      rw [mem_code_vatMismatch] at hex
      rw [hm] at hex
      cases hex
    · intro hc
      have hex : (∃ i ∈ issuesFor inv, i.code = "SUBTOTAL_NEG") := ⟨i, hmem, hc⟩
      rw [mem_code_subtotalNeg] at hex
      rw [hs] at hex
      cases hex

/-- C7 witness: the arithmetic-check characterization instantiated on the
canonical sample record, whose total and vat are the numbers 1000 and 170. -/
theorem c7_arith_checks_witness :
    ∃ r, validateInvoiceLocally sampleInvoice = Except.ok r ∧
      (((∃ i ∈ r.issues, i.code = "VAT_MISMATCH") ↔
          1 < |(mathRound (((1000 : ℚ) - 170) * 0.17 * 100) : ℚ) / 100 - 170|) ∧
        ((∃ i ∈ r.issues, i.code = "SUBTOTAL_NEG") ↔ (1000 : ℚ) - 170 ≤ 0)) :=
  ⟨_, validate_eq sampleInvoice rfl,
    (c7_arith_checks sampleInvoice _ (validate_eq sampleInvoice rfl)).1 1000 170 rfl rfl⟩

/-- C10: the VAT-number format checks coerce the value with `String(...)`
before the nine-digit test, so a truthy non-string supplier or customer VAT
whose string representation is exactly nine digits produces no format
finding. -/
theorem c10_fmt_coercion (inv : JSVal) (r : Report)
    (h : validateInvoiceLocally inv = Except.ok r) :
    (truthy (optGet inv "supplierVat") = true →
      isString (optGet inv "supplierVat") = false →
      isNineDigits (jsToString (optGet inv "supplierVat")) = true →
      ∀ i ∈ r.issues, i.code ≠ "SUPPLIER_VAT_FMT") ∧
    (truthy (optGet inv "customerVat") = true →
      isString (optGet inv "customerVat") = false →
      isNineDigits (jsToString (optGet inv "customerVat")) = true →
      ∀ i ∈ r.issues, i.code ≠ "CUSTOMER_VAT_FMT") := by
  obtain ⟨hn, hr⟩ := validate_ok_inv h
  have hi : r.issues = issuesFor inv := by rw [hr]
  rw [hi]
  constructor
  · intro htr hns hnine i hmem hc
    have hbad : supplierVatFmtBad inv = false := by
      simp [supplierVatFmtBad, htr, hnine]
    have hex : (∃ i ∈ issuesFor inv, i.code = "SUPPLIER_VAT_FMT") := ⟨i, hmem, hc⟩
    rw [mem_code_supplierFmt, hbad] at hex
    cases hex
  · intro htr hns hnine i hmem hc
    have hbad : customerVatFmtBad inv = false := by
      simp [customerVatFmtBad, htr, hnine]
    have hex : (∃ i ∈ issuesFor inv, i.code = "CUSTOMER_VAT_FMT") := ⟨i, hmem, hc⟩
    rw [mem_code_customerFmt, hbad] at hex
    cases hex

/-- C10 witness: numeric VAT ids 512345679 and 598765431 (truthy,
non-string, nine-digit string representation) produce no format finding. -/
theorem c10_fmt_coercion_witness :
    ∃ r, validateInvoiceLocally
        (.vObj [("supplierVat", .vNum 512345679), ("customerVat", .vNum 598765431)])
        = Except.ok r ∧
      ((∀ i ∈ r.issues, i.code ≠ "SUPPLIER_VAT_FMT") ∧
        (∀ i ∈ r.issues, i.code ≠ "CUSTOMER_VAT_FMT")) :=
  ⟨_, validate_eq
      (.vObj [("supplierVat", .vNum 512345679), ("customerVat", .vNum 598765431)]) rfl,
    (c10_fmt_coercion
        (.vObj [("supplierVat", .vNum 512345679), ("customerVat", .vNum 598765431)]) _
        (validate_eq
          (.vObj [("supplierVat", .vNum 512345679), ("customerVat", .vNum 598765431)]) rfl)).1
      (by decide) (by decide) (by decide),
    (c10_fmt_coercion
        (.vObj [("supplierVat", .vNum 512345679), ("customerVat", .vNum 598765431)]) _
        (validate_eq
          (.vObj [("supplierVat", .vNum 512345679), ("customerVat", .vNum 598765431)]) rfl)).2
      (by decide) (by decide) (by decide)⟩

lemma supplierVatMissing_congr {a b : JSVal}
    (h : optGet a "supplierVat" = optGet b "supplierVat") :
    supplierVatMissing a = supplierVatMissing b := by
  unfold supplierVatMissing
  rw [h]

lemma customerVatMissing_congr {a b : JSVal}
    (h : optGet a "customerVat" = optGet b "customerVat") :
    customerVatMissing a = customerVatMissing b := by
  unfold customerVatMissing
  rw [h]

lemma dateMissing_congr {a b : JSVal}
    (h : optGet a "date" = optGet b "date") :
    dateMissing a = dateMissing b := by
  unfold dateMissing
  rw [h]

lemma totalMissing_congr {a b : JSVal}
    (h : optGet a "total" = optGet b "total") :
    totalMissing a = totalMissing b := by
  unfold totalMissing
  rw [h]

lemma vatMissing_congr {a b : JSVal}
    (h : optGet a "vat" = optGet b "vat") :
    vatMissing a = vatMissing b := by
  unfold vatMissing
  rw [h]

lemma supplierVatFmtBad_congr {a b : JSVal}
    (h : optGet a "supplierVat" = optGet b "supplierVat") :
    supplierVatFmtBad a = supplierVatFmtBad b := by
  unfold supplierVatFmtBad
  rw [h]

lemma customerVatFmtBad_congr {a b : JSVal}
    (h : optGet a "customerVat" = optGet b "customerVat") :
    customerVatFmtBad a = customerVatFmtBad b := by
  unfold customerVatFmtBad
  rw [h]

lemma vatMismatch_congr {a b : JSVal}
    (h1 : optGet a "total" = optGet b "total") (h2 : optGet a "vat" = optGet b "vat") :
    vatMismatch a = vatMismatch b := by
  unfold vatMismatch arithApplicable expectedVatOf subtotalOf
  rw [h1, h2]

lemma subtotalNeg_congr {a b : JSVal}
    (h1 : optGet a "total" = optGet b "total") (h2 : optGet a "vat" = optGet b "vat") :
    subtotalNeg a = subtotalNeg b := by
  unfold subtotalNeg arithApplicable subtotalOf
  rw [h1, h2]

lemma currencyUnsupported_congr {a b : JSVal}
    (h : optGet a "currency" = optGet b "currency") :
    currencyUnsupported a = currencyUnsupported b := by
  unfold currencyUnsupported
  rw [h]

lemma invoiceIdWeak_congr {a b : JSVal}
    (h : optGet a "invoiceId" = optGet b "invoiceId") :
    invoiceIdWeak a = invoiceIdWeak b := by
  unfold invoiceIdWeak
  rw [h]

lemma supplierVatMissing_of_fmtBad (inv : JSVal) (h : supplierVatFmtBad inv = true) :
    supplierVatMissing inv = false := by
  simp only [supplierVatFmtBad, Bool.and_eq_true] at h
  simp [supplierVatMissing, h.1]

lemma customerVatMissing_of_fmtBad (inv : JSVal) (h : customerVatFmtBad inv = true) :
    customerVatMissing inv = false := by
  simp only [customerVatFmtBad, Bool.and_eq_true] at h
  simp [customerVatMissing, h.1]

lemma ite_weight_nonneg (b : Bool) (w : Int) (hw : 0 ≤ w) :
    0 ≤ if b then w else 0 := by
  cases b <;> simp [hw]

lemma ite_weight_le (b : Bool) (w : Int) (hw : 0 ≤ w) :
    (if b then w else 0) ≤ w := by
  cases b <;> simp [hw]

/-- C6 counterexample: on the record `{vat: 170}` the `TOTAL` presence check
fails; replacing the `total` field with the number 100 makes that check pass
and leaves every other field unchanged, yet the score drops from 26 to 14,
because the replacement newly enables the arithmetic block, which fires both
`VAT_MISMATCH` and `SUBTOTAL_NEG`. -/
theorem c6_counterexample :
    checkFires Check.totalC (.vObj [("vat", .vNum 170)]) = true ∧
    checkFires Check.totalC
      (setField (.vObj [("vat", .vNum 170)]) "total" (.vNum 100)) = false ∧
    ∃ r r', validateInvoiceLocally (.vObj [("vat", .vNum 170)]) = Except.ok r ∧
      validateInvoiceLocally
        (setField (.vObj [("vat", .vNum 170)]) "total" (.vNum 100)) = Except.ok r' ∧
      r'.score < r.score := by
  have hset : setField (.vObj [("vat", .vNum 170)]) "total" (.vNum 100)
      = .vObj [("vat", .vNum 170), ("total", .vNum 100)] := rfl
  rw [hset]
  have hm1 : vatMismatch (.vObj [("vat", .vNum 170), ("total", .vNum 100)]) = true := by
    simp [vatMismatch, arithApplicable, expectedVatOf, subtotalOf, optGet, lookupField,
      asNum, isNumber, mathRound, vatRate]
    exact one_lt_abs_of_lt_neg_one (by norm_num)
  have hn1 : subtotalNeg (.vObj [("vat", .vNum 170), ("total", .vNum 100)]) = true := by
    simp [subtotalNeg, arithApplicable, subtotalOf, optGet, lookupField, asNum, isNumber]
    try norm_num
  have hI0 : issuesFor (.vObj [("vat", .vNum 170)]) =
      [ req "SUPPLIER_VAT" .HIGH "חסר מספר עוסק של הספק" "הוסף מספר עוסק (9 ספרות) בשדה supplierVat"
      , req "CUSTOMER_VAT" .MED "חסר מספר עוסק של הלקוח" "הוסף מספר עוסק בשדה customerVat"
      , req "DATE" .MED "חסר תאריך חשבונית" "הוסף תאריך בפורמט YYYY-MM-DD"
      , req "TOTAL" .HIGH "חסר סכום סופי (total)" "הוסף סכום כולל" ] := by
    have hm : vatMismatch (.vObj [("vat", .vNum 170)]) = false := by
      simp [vatMismatch, arithApplicable, optGet, lookupField, isNumber]
    have hn : subtotalNeg (.vObj [("vat", .vNum 170)]) = false := by
      simp [subtotalNeg, arithApplicable, optGet, lookupField, isNumber]
    have h1 : supplierVatMissing (.vObj [("vat", .vNum 170)]) = true := by decide
    have h2 : customerVatMissing (.vObj [("vat", .vNum 170)]) = true := by decide
    have h3 : dateMissing (.vObj [("vat", .vNum 170)]) = true := by decide
    have h4 : totalMissing (.vObj [("vat", .vNum 170)]) = true := by decide
    have h5 : vatMissing (.vObj [("vat", .vNum 170)]) = false := by decide
    have h6 : supplierVatFmtBad (.vObj [("vat", .vNum 170)]) = false := by decide
    have h7 : customerVatFmtBad (.vObj [("vat", .vNum 170)]) = false := by decide
    have h10 : currencyUnsupported (.vObj [("vat", .vNum 170)]) = false := by decide
    have h11 : invoiceIdWeak (.vObj [("vat", .vNum 170)]) = false := by decide
    simp [issuesFor, h1, h2, h3, h4, h5, h6, h7, hm, hn, h10, h11]
  have hI1 : issuesFor (.vObj [("vat", .vNum 170), ("total", .vNum 100)]) =
      [ req "SUPPLIER_VAT" .HIGH "חסר מספר עוסק של הספק" "הוסף מספר עוסק (9 ספרות) בשדה supplierVat"
      , req "CUSTOMER_VAT" .MED "חסר מספר עוסק של הלקוח" "הוסף מספר עוסק בשדה customerVat"
      , req "DATE" .MED "חסר תאריך חשבונית" "הוסף תאריך בפורמט YYYY-MM-DD"
      , req "VAT_MISMATCH" .MED "מע\"מ לא תואם את שיעור 17%" "בדוק חישובי ביניים/עגול סכומים"
      , req "SUBTOTAL_NEG" .HIGH "סכום לפני מע\"מ לא תקין (שלילי/אפס)" "בדוק שורת פריטים וחישוב סיכומים" ] := by
    have h1 : supplierVatMissing (.vObj [("vat", .vNum 170), ("total", .vNum 100)]) = true := by decide
    have h2 : customerVatMissing (.vObj [("vat", .vNum 170), ("total", .vNum 100)]) = true := by decide
    have h3 : dateMissing (.vObj [("vat", .vNum 170), ("total", .vNum 100)]) = true := by decide
    have h4 : totalMissing (.vObj [("vat", .vNum 170), ("total", .vNum 100)]) = false := by decide
    have h5 : vatMissing (.vObj [("vat", .vNum 170), ("total", .vNum 100)]) = false := by decide
    have h6 : supplierVatFmtBad (.vObj [("vat", .vNum 170), ("total", .vNum 100)]) = false := by decide
    have h7 : customerVatFmtBad (.vObj [("vat", .vNum 170), ("total", .vNum 100)]) = false := by decide
    have h10 : currencyUnsupported (.vObj [("vat", .vNum 170), ("total", .vNum 100)]) = false := by decide
    have h11 : invoiceIdWeak (.vObj [("vat", .vNum 170), ("total", .vNum 100)]) = false := by decide
    simp [issuesFor, h1, h2, h3, h4, h5, h6, h7, hm1, hn1, h10, h11]
  refine ⟨by decide, by decide, _, _, validate_eq _ rfl, validate_eq _ rfl, ?_⟩
  have hp0 : penaltySum (issuesFor (.vObj [("vat", .vNum 170)])) = 74 := by
    rw [hI0]
    simp [penaltySum_cons, penaltySum, severityPenalty, req]
  have hp1 : penaltySum (issuesFor (.vObj [("vat", .vNum 170), ("total", .vNum 100)])) = 86 := by
    rw [hI1]
    simp [penaltySum_cons, penaltySum, severityPenalty, req]
  show max 0 (min 100 (100 - penaltySum (issuesFor (.vObj [("vat", .vNum 170), ("total", .vNum 100)]))))
      < max 0 (min 100 (100 - penaltySum (issuesFor (.vObj [("vat", .vNum 170)]))))
  rw [hp0, hp1]
  decide

/-- C6 amended: for every check on a field other than `total` and `vat`
(whose replacement can newly fire the arithmetic findings), replacing the
field's value so that a previously failing check passes, while leaving every
other field unchanged, never yields a strictly lower score. -/
theorem c6_amended_monotone (fs fs' : List (String × JSVal)) (c : Check)
    (hft : c.field ≠ "total") (hfv : c.field ≠ "vat")
    (hframe : ∀ k, k ≠ c.field → optGet (.vObj fs') k = optGet (.vObj fs) k)
    (hfail : checkFires c (.vObj fs) = true)
    (hpass : checkFires c (.vObj fs') = false)
    (r r' : Report)
    (h : validateInvoiceLocally (.vObj fs) = Except.ok r)
    (h' : validateInvoiceLocally (.vObj fs') = Except.ok r') :
    r.score ≤ r'.score := by
  obtain ⟨-, hr⟩ := validate_ok_inv h
  obtain ⟨-, hr'⟩ := validate_ok_inv h'
  have hsc : r.score = max 0 (min 100 (100 - penaltySum (issuesFor (.vObj fs)))) := by
    rw [hr]
  have hsc' : r'.score = max 0 (min 100 (100 - penaltySum (issuesFor (.vObj fs')))) := by
    rw [hr']
  rw [hsc, hsc']
  have key : penaltySum (issuesFor (.vObj fs')) ≤ penaltySum (issuesFor (.vObj fs)) := by
    rw [penaltySum_issuesFor, penaltySum_issuesFor]
    cases c with
    | totalC => exact absurd rfl hft
    | subtotalNegC => exact absurd rfl hft
    | vatC => exact absurd rfl hfv
    | vatMismatchC => exact absurd rfl hfv
    | supplierVatC =>
        simp only [checkFires] at hfail hpass
        have e2 := hframe "customerVat" (by decide)
        have e3 := hframe "date" (by decide)
        have e4 := hframe "total" (by decide)
        have e5 := hframe "vat" (by decide)
        have e6 := hframe "currency" (by decide)
        have e7 := hframe "invoiceId" (by decide)
        have hfmt0 : supplierVatFmtBad (.vObj fs) = false :=
          supplierVatFmtBad_of_missing _ hfail
        have hb1 : (if supplierVatFmtBad (.vObj fs') then (25 : Int) else 0) ≤ 25 :=
          ite_weight_le _ _ (by norm_num)
        rw [customerVatMissing_congr e2, customerVatFmtBad_congr e2, dateMissing_congr e3,
          totalMissing_congr e4, vatMissing_congr e5, vatMismatch_congr e4 e5,
          subtotalNeg_congr e4 e5, currencyUnsupported_congr e6, invoiceIdWeak_congr e7,
          hfail, hpass, hfmt0]
        simp only [Bool.false_eq_true, Bool.true_eq_false, if_false, if_true, reduceIte]
        linarith
    | supplierVatFmtC =>
        simp only [checkFires] at hfail hpass
        have e2 := hframe "customerVat" (by decide)
        have e3 := hframe "date" (by decide)
        have e4 := hframe "total" (by decide)
        have e5 := hframe "vat" (by decide)
        have e6 := hframe "currency" (by decide)
        have e7 := hframe "invoiceId" (by decide)
        have hm0 : supplierVatMissing (.vObj fs) = false :=
          supplierVatMissing_of_fmtBad _ hfail
        have hb1 : (if supplierVatMissing (.vObj fs') then (25 : Int) else 0) ≤ 25 :=
          ite_weight_le _ _ (by norm_num)
        rw [customerVatMissing_congr e2, customerVatFmtBad_congr e2, dateMissing_congr e3,
          totalMissing_congr e4, vatMissing_congr e5, vatMismatch_congr e4 e5,
          subtotalNeg_congr e4 e5, currencyUnsupported_congr e6, invoiceIdWeak_congr e7,
          hfail, hpass, hm0]
        simp only [Bool.false_eq_true, Bool.true_eq_false, if_false, if_true, reduceIte]
        linarith
    | customerVatC =>
        simp only [checkFires] at hfail hpass
        have e1 := hframe "supplierVat" (by decide)
        have e3 := hframe "date" (by decide)
        have e4 := hframe "total" (by decide)
        have e5 := hframe "vat" (by decide)
        have e6 := hframe "currency" (by decide)
        have e7 := hframe "invoiceId" (by decide)
        have hfmt0 : customerVatFmtBad (.vObj fs) = false :=
          customerVatFmtBad_of_missing _ hfail
        have hb1 : (if customerVatFmtBad (.vObj fs') then (12 : Int) else 0) ≤ 12 :=
          ite_weight_le _ _ (by norm_num)
        rw [supplierVatMissing_congr e1, supplierVatFmtBad_congr e1, dateMissing_congr e3,
          totalMissing_congr e4, vatMissing_congr e5, vatMismatch_congr e4 e5,
          subtotalNeg_congr e4 e5, currencyUnsupported_congr e6, invoiceIdWeak_congr e7,
          hfail, hpass, hfmt0]
        simp only [Bool.false_eq_true, Bool.true_eq_false, if_false, if_true, reduceIte]
        linarith
    | customerVatFmtC =>
        simp only [checkFires] at hfail hpass
        have e1 := hframe "supplierVat" (by decide)
        have e3 := hframe "date" (by decide)
        have e4 := hframe "total" (by decide)
        have e5 := hframe "vat" (by decide)
        have e6 := hframe "currency" (by decide)
        have e7 := hframe "invoiceId" (by decide)
        have hm0 : customerVatMissing (.vObj fs) = false :=
          customerVatMissing_of_fmtBad _ hfail
        have hb1 : (if customerVatMissing (.vObj fs') then (12 : Int) else 0) ≤ 12 :=
          ite_weight_le _ _ (by norm_num)
        rw [supplierVatMissing_congr e1, supplierVatFmtBad_congr e1, dateMissing_congr e3,
          totalMissing_congr e4, vatMissing_congr e5, vatMismatch_congr e4 e5,
          subtotalNeg_congr e4 e5, currencyUnsupported_congr e6, invoiceIdWeak_congr e7,
          hfail, hpass, hm0]
        simp only [Bool.false_eq_true, Bool.true_eq_false, if_false, if_true, reduceIte]
        linarith
    | dateC =>
        simp only [checkFires] at hfail hpass
        have e1 := hframe "supplierVat" (by decide)
        have e2 := hframe "customerVat" (by decide)
        have e4 := hframe "total" (by decide)
        have e5 := hframe "vat" (by decide)
        have e6 := hframe "currency" (by decide)
        have e7 := hframe "invoiceId" (by decide)
        rw [supplierVatMissing_congr e1, supplierVatFmtBad_congr e1,
          customerVatMissing_congr e2, customerVatFmtBad_congr e2,
          totalMissing_congr e4, vatMissing_congr e5, vatMismatch_congr e4 e5,
          subtotalNeg_congr e4 e5, currencyUnsupported_congr e6, invoiceIdWeak_congr e7,
          hfail, hpass]
        simp only [Bool.false_eq_true, Bool.true_eq_false, if_false, if_true, reduceIte]
        linarith
    | currencyC =>
        simp only [checkFires] at hfail hpass
        have e1 := hframe "supplierVat" (by decide)
        have e2 := hframe "customerVat" (by decide)
        have e3 := hframe "date" (by decide)
        have e4 := hframe "total" (by decide)
        have e5 := hframe "vat" (by decide)
        have e7 := hframe "invoiceId" (by decide)
        rw [supplierVatMissing_congr e1, supplierVatFmtBad_congr e1,
          customerVatMissing_congr e2, customerVatFmtBad_congr e2, dateMissing_congr e3,
          totalMissing_congr e4, vatMissing_congr e5, vatMismatch_congr e4 e5,
          subtotalNeg_congr e4 e5, invoiceIdWeak_congr e7,
          hfail, hpass]
        simp only [Bool.false_eq_true, Bool.true_eq_false, if_false, if_true, reduceIte]
        linarith
    | invoiceIdC =>
        simp only [checkFires] at hfail hpass
        have e1 := hframe "supplierVat" (by decide)
        have e2 := hframe "customerVat" (by decide)
        have e3 := hframe "date" (by decide)
        have e4 := hframe "total" (by decide)
        have e5 := hframe "vat" (by decide)
        have e6 := hframe "currency" (by decide)
        rw [supplierVatMissing_congr e1, supplierVatFmtBad_congr e1,
          customerVatMissing_congr e2, customerVatFmtBad_congr e2, dateMissing_congr e3,
          totalMissing_congr e4, vatMissing_congr e5, vatMismatch_congr e4 e5,
          subtotalNeg_congr e4 e5, currencyUnsupported_congr e6,
          hfail, hpass]
        simp only [Bool.false_eq_true, Bool.true_eq_false, if_false, if_true, reduceIte]
        linarith
  omega

/-- C6 amended witness: adding a valid date to the empty record fixes the
failing DATE check and does not lower the score. -/
theorem c6_amended_monotone_witness :
    ∃ r r', validateInvoiceLocally (.vObj []) = Except.ok r ∧
      validateInvoiceLocally (.vObj [("date", .vStr "2025-09-12")]) = Except.ok r' ∧
      r.score ≤ r'.score := by
  refine ⟨_, _, validate_eq _ rfl, validate_eq _ rfl, ?_⟩
  refine c6_amended_monotone [] [("date", .vStr "2025-09-12")] Check.dateC
    (by decide) (by decide) ?_ (by decide) (by decide) _ _
    (validate_eq _ rfl) (validate_eq _ rfl)
  intro k hk
  have hbeq : ("date" == k) = false := by
    simp only [beq_eq_false_iff_ne]
    intro hcontra
    exact hk (by simpa [Check.field] using hcontra.symm)
  simp [optGet, lookupField, hbeq]

end ClearEdge
